import Mathlib

/-!
Shallow embedding of the `pcups` package (`src/pcups/api.py`,
`src/pcups/exceptions.py`): a thin object-oriented facade over the
`cups` client library.  The external connection object
(`cups.Connection`) is modelled as a record of response functions; each
method of the Python classes `CUPS`, `Job` and `Printer` becomes a Lean
function over that record.  Python exceptions are modelled with an
`Except` result whose error type enumerates the exception classes that
the code can raise; every pcups exception class carries exactly one
string message and no other state, mirroring `exceptions.py`.
-/

deriving instance DecidableEq for Except

/-- The Python exception values that the pcups code can raise or catch.
Each pcups exception (`JobNotFoundError`, `JobCompletedError`,
`JobDocumentNotAvailableError`, `PrinterNotFoundError`) subclasses
`IPPError` and carries only its message string. -/
inductive PyErr where
  | ippError : PyErr
  | jobNotFoundError : String → PyErr
  | jobCompletedError : String → PyErr
  | jobDocumentNotAvailableError : String → PyErr
  | printerNotFoundError : String → PyErr
  | notImplementedError : String → PyErr
  | attributeError : String → PyErr
  | keyError : PyErr
  | typeError : PyErr
  | valueError : String → PyErr
  | unboundLocalError : String → PyErr
  deriving DecidableEq

/-- The job-attribute dictionary entries read by `Job.status`
(`job-state` and `job-state-reasons`). -/
structure JobAttrs where
  jobState : Nat
  jobStateReasons : List String
  deriving DecidableEq

/-- The printer-attribute dictionary entries read by the `Printer`
class (`device-uri`, `printer-location`, `printer-state`,
`printer-state-reasons`). -/
structure PrinterAttrs where
  deviceUri : String
  printerLocation : String
  printerState : Nat
  printerStateReasons : List String
  deriving DecidableEq

/-- The external `cups.Connection` object, modelled as the responses it
gives to the calls the pcups code makes.  An `Except Unit` result with
`.error ()` models the underlying call raising `cups.IPPError`. -/
structure Conn where
  getDefaultResult : Option String
  printersList : List String
  getJobAttributesResult : Int → Except Unit JobAttrs
  getPrinterAttributesResult : String → PrinterAttrs
  cancelJobResult : Int → Except Unit Unit
  restartJobResult : Int → Except Unit Unit
  printFileResult : String → String → String → List (String × String) → Int

/-- A single-quote character, used by the Python `repr` of strings. -/
def squote : String := String.mk [Char.ofNat 39]

/-- Python `repr` of a string as it appears inside `str(list)`; spool
state-reason strings contain no quotes or escapes, so quoting is plain
surrounding single quotes. -/
def pyStrRepr (s : String) : String := squote ++ s ++ squote

/-- Python `"{}".format(reasons)` where `reasons` is a list of strings:
`str` of the list, e.g. `['none']`. -/
def formatList (xs : List String) : String :=
  "[" ++ String.intercalate ", " (xs.map pyStrRepr) ++ "]"

/-- The `job_states` dictionary of `Job.status`; `.get` on a missing
key returns `None`, modelled by `none`. -/
def job_states : Nat → Option String
  | 3 => some "Pending"
  | 4 => some "Pending-held"
  | 5 => some "Processing"
  | 6 => some "Processing-stopped"
  | 7 => some "Canceled"
  | 8 => some "Aborted"
  | 9 => some "Completed"
  | _ => none

/-- The body of the `try` block of `Job.status`:
`job_state = job_states.get(state)` followed by
`output = job_state if reasons == ['none'] else job_state + " - {}".format(reasons)`.
The value is `Option String` because `job_states.get` can produce
`None`; concatenating `None + str` raises `TypeError`. -/
def jobStatusTryBody (state : Nat) (reasons : List String) :
    Except PyErr (Option String) :=
  let jobState := job_states state
  if reasons = ["none"] then
    .ok jobState
  else
    match jobState with
    | some s => .ok (some (s ++ " - " ++ formatList reasons))
    | none => .error .typeError

/-- The `try ... except KeyError: output = 'Not detected.'` wrapper of
`Job.status` around `jobStatusTryBody`. -/
def jobStatusAfterFetch (state : Nat) (reasons : List String) :
    Except PyErr (Option String) :=
  match jobStatusTryBody state reasons with
  | .error .keyError => .ok (some "Not detected.")
  | r => r

/-- `Job.status`: fetch the job attributes, turning `cups.IPPError`
into `JobNotFoundError('Job {} does not exist.'.format(job_id))`, then
translate the state code.  (The assignment caching the fetched
attributes on the object is not read by any other method and is not
modelled.) -/
def Job.status (conn : Conn) (jobId : Int) : Except PyErr (Option String) :=
  match conn.getJobAttributesResult jobId with
  | .error _ =>
      .error (.jobNotFoundError ("Job " ++ toString jobId ++ " does not exist."))
  | .ok attrs => jobStatusAfterFetch attrs.jobState attrs.jobStateReasons

/-- `Job.cancel`: forward to `cancelJob`, turning `cups.IPPError` into
`JobCompletedError('Job {} has been completed.'.format(job_id))`. -/
def Job.cancel (conn : Conn) (jobId : Int) : Except PyErr Unit :=
  match conn.cancelJobResult jobId with
  | .error _ =>
      .error (.jobCompletedError ("Job " ++ toString jobId ++ " has been completed."))
  | .ok _ => .ok ()

/-- `Job.restart`: forward to `restartJob`, turning `cups.IPPError`
into `JobDocumentNotAvailableError("Job's {} document does not
exist.".format(job_id))`. -/
def Job.restart (conn : Conn) (jobId : Int) : Except PyErr Unit :=
  match conn.restartJobResult jobId with
  | .error _ =>
      .error (.jobDocumentNotAvailableError
        ("Job" ++ squote ++ "s " ++ toString jobId ++ " document does not exist."))
  | .ok _ => .ok ()

/-- Python built-in `int()` on a nonempty all-digit character list. -/
def decDigitsAux : Nat → List Char → Option Nat
  | acc, [] => some acc
  | acc, c :: rest =>
      if c.isDigit then decDigitsAux (acc * 10 + (c.toNat - 48)) rest else none

/-- Digit-run core of Python `int()`: `some` value when the list is a
nonempty run of decimal digits, `none` otherwise. -/
def decDigits : List Char → Option Nat
  | [] => none
  | l => decDigitsAux 0 l

/-- Python built-in `int(s)` on its sign-and-digits core: an optional
single leading sign followed by a nonempty digit run; anything else
raises `ValueError`.  (Surrounding whitespace and underscore digit
separators, which no spool control-file name contains, are treated as
invalid.) -/
def pyInt (l : List Char) : Except PyErr Int :=
  match l with
  | '-' :: rest =>
      match decDigits rest with
      | some n => .ok (-(n : Int))
      | none => .error (.valueError "invalid literal for int")
  | '+' :: rest =>
      match decDigits rest with
      | some n => .ok (n : Int)
      | none => .error (.valueError "invalid literal for int")
  | _ =>
      match decDigits l with
      | some n => .ok (n : Int)
      | none => .error (.valueError "invalid literal for int")

/-- The `job_number` helper of `Job.list`: walk the filename; at the
first character that is not `'c'` and not `'0'`, return
`int(filename[index:])`; if every character is `'c'` or `'0'`, return
`None`. -/
def job_number : List Char → Except PyErr (Option Int)
  | [] => .ok none
  | c :: rest =>
      if c = 'c' ∨ c = '0' then job_number rest
      else (pyInt (c :: rest)).map some

/-- Sequential evaluation of a Python list comprehension whose element
expression can raise: the first exception aborts the whole list. -/
def mapExcept {α β : Type} (f : α → Except PyErr β) : List α → Except PyErr (List β)
  | [] => .ok []
  | a :: l =>
      match f a with
      | .error e => .error e
      | .ok b =>
          match mapExcept f l with
          | .error e => .error e
          | .ok bs => .ok (b :: bs)

/-- `spooldir.glob('c*')` matches exactly the file names that start
with the character `'c'`. -/
def globMatchesC (n : String) : Bool :=
  match n.toList with
  | 'c' :: _ => true
  | _ => false

/-- `Job.list`: one `Job(job_number(f.name))` per control file matched
by `spooldir.glob('c*')`, i.e. per file name starting with `'c'`.  The
spool directory contents are a parameter; a `Job` object is represented
by the `job_id` it carries. -/
def Job.list (spool : List String) : Except PyErr (List (Option Int)) :=
  mapExcept (fun n => job_number n.toList) (spool.filter (fun n => globMatchesC n))

/-- The fields of a `Printer` object.  `_name` backs the `name`
property; `attributes`, `device_uri`, `location` and `job_id` are the
attribute caches initialised to `None` in `__init__`. -/
structure PrinterState where
  _name : String
  job_id : Option Int
  attributes : Option PrinterAttrs
  device_uri : Option String
  location : Option String
  default_message : String
  deriving DecidableEq

/-- `Printer.valid`: `True` exactly when the name is a key of
`conn.getPrinters()`. -/
def Printer.valid (conn : Conn) (p : PrinterState) : Bool :=
  if p._name ∈ conn.printersList then true else false

/-- The `valid` setter: always raises
`AttributeError('Valid is not a writable attribute.')`; no field of the
object is touched, so no updated state is ever produced. -/
def Printer.setValid (p : PrinterState) (v : Bool) : Except PyErr PrinterState :=
  .error (.attributeError "Valid is not a writable attribute.")

/-- The `name` setter: store `_name`, and only when the new name is
valid overwrite the `attributes`, `device_uri` and `location` caches
from `getPrinterAttributes`; otherwise every other field keeps its
previous value. -/
def Printer.setName (conn : Conn) (p : PrinterState) (name : String) : PrinterState :=
  let p1 : PrinterState := { p with _name := name }
  if Printer.valid conn p1 then
    let attrs := conn.getPrinterAttributesResult name
    { p1 with
        attributes := some attrs
        device_uri := some attrs.deviceUri
        location := some attrs.printerLocation }
  else p1

/-- `Printer.__init__(name)`: initialise `job_id`, `attributes`,
`device_uri`, `location` to `None` and `default_message` to the fixed
string, then run the `name` setter via `self.name = name`. -/
def Printer.init (conn : Conn) (name : String) : PrinterState :=
  Printer.setName conn
    { _name := ""
      job_id := none
      attributes := none
      device_uri := none
      location := none
      default_message := "Unable to locate the printer." }
    name

/-- The `printer_states` dictionary of `Printer.status`. -/
def printer_states : Nat → Option String
  | 3 => some "Idle"
  | 4 => some "Processing"
  | 5 => some "Stopped"
  | _ => none

/-- The body of the `try` block of `Printer.status`, same shape as
`jobStatusTryBody` with the `printer_states` table. -/
def printerStatusTryBody (state : Nat) (reasons : List String) :
    Except PyErr (Option String) :=
  let printerState := printer_states state
  if reasons = ["none"] then
    .ok printerState
  else
    match printerState with
    | some s => .ok (some (s ++ " - " ++ formatList reasons))
    | none => .error .typeError

/-- The `try ... except KeyError: output = 'Not detected.'` wrapper of
`Printer.status` around `printerStatusTryBody`. -/
def printerStatusAfterFetch (state : Nat) (reasons : List String) :
    Except PyErr (Option String) :=
  match printerStatusTryBody state reasons with
  | .error .keyError => .ok (some "Not detected.")
  | r => r

/-- `Printer.status`: `output` starts as `default_message`; when the
printer is valid, the state code and reasons are fetched from
`getPrinterAttributes` and translated. -/
def Printer.status (conn : Conn) (p : PrinterState) : Except PyErr (Option String) :=
  if Printer.valid conn p then
    let attrs := conn.getPrinterAttributesResult p._name
    printerStatusAfterFetch attrs.printerState attrs.printerStateReasons
  else
    .ok (some p.default_message)

/-- `Printer.validate`: raise when not valid.  The source raises
`NotImplementedError(self.default_message)` here, not
`PrinterNotFoundError`. -/
def Printer.validate (conn : Conn) (p : PrinterState) : Except PyErr Unit :=
  if Printer.valid conn p then .ok ()
  else .error (.notImplementedError p.default_message)

/-- `Printer.delete`: validate, then call `conn.deletePrinter`.  The
boolean records whether the underlying call was reached. -/
def Printer.delete (conn : Conn) (p : PrinterState) : Except PyErr Unit × Bool :=
  match Printer.validate conn p with
  | .error e => (.error e, false)
  | .ok _ => (.ok (), true)

/-- `Printer.disable`: validate, then call `conn.disablePrinter`. -/
def Printer.disable (conn : Conn) (p : PrinterState) : Except PyErr Unit × Bool :=
  match Printer.validate conn p with
  | .error e => (.error e, false)
  | .ok _ => (.ok (), true)

/-- `Printer.enable`: validate, then call `conn.enablePrinter`. -/
def Printer.enable (conn : Conn) (p : PrinterState) : Except PyErr Unit × Bool :=
  match Printer.validate conn p with
  | .error e => (.error e, false)
  | .ok _ => (.ok (), true)

/-- `Printer.add`: the body is only `self.validate()` (the queue
manipulation is an unimplemented TODO). -/
def Printer.add (conn : Conn) (p : PrinterState) : Except PyErr Unit :=
  Printer.validate conn p

/-- `Printer.export_ppd`: the body is only `self.validate()`. -/
def Printer.export_ppd (conn : Conn) (p : PrinterState) : Except PyErr Unit :=
  Printer.validate conn p

/-- `Printer.print(filename, title, options)`: validate, then store the
id returned by `conn.printFile` in `job_id` and return it.  The result
is the returned value, the object state after the call, and whether
`printFile` was invoked. -/
def Printer.print (conn : Conn) (p : PrinterState)
    (filename title : String) (options : List (String × String)) :
    Except PyErr Int × PrinterState × Bool :=
  match Printer.validate conn p with
  | .error e => (.error e, p, false)
  | .ok _ =>
      let jid := conn.printFileResult p._name filename title options
      (.ok jid, { p with job_id := some jid }, true)

/-- `CUPS.get_default`: wrap the reported default printer name when it
is truthy (`None` and the empty string are falsy), else `None`. -/
def CUPS.get_default (conn : Conn) : Option PrinterState :=
  match conn.getDefaultResult with
  | none => none
  | some name => if name = "" then none else some (Printer.init conn name)

/-- `CUPS.get_printers`: one `Printer(name)` per key of
`conn.getPrinters()`. -/
def CUPS.get_printers (conn : Conn) : List PrinterState :=
  conn.printersList.map (Printer.init conn)

/-- `CUPS.get_job_attributes`: the method signature takes no job id;
the body evaluates `int(jobid)` with the local variable `jobid` unbound
(it is assigned on that same line), so every call raises
`UnboundLocalError` for `jobid`, which the `except ValueError` clause
does not catch.  The `conn.getJobAttributes` line is never reached. -/
def CUPS.get_job_attributes (conn : Conn) : Except PyErr JobAttrs :=
  .error (.unboundLocalError "jobid")

/-- A concrete connection used to evaluate the embedding: one queue
`hp`, a job in state 3 (`Pending`) with reasons `['none']`, and the
`hp` queue in state 5 (`Stopped`) with reasons `['paused']`. -/
def connBase : Conn :=
  { getDefaultResult := some "hp"
    printersList := ["hp"]
    getJobAttributesResult := fun _ => .ok { jobState := 3, jobStateReasons := ["none"] }
    getPrinterAttributesResult := fun _ =>
      { deviceUri := "usb://hp/LaserJet"
        printerLocation := "office"
        printerState := 5
        printerStateReasons := ["paused"] }
    cancelJobResult := fun _ => .ok ()
    restartJobResult := fun _ => .ok ()
    printFileResult := fun _ _ _ _ => 42 }

/-- A connection on which every underlying job call raises
`cups.IPPError`. -/
def connIPPFail : Conn :=
  { connBase with
      getJobAttributesResult := fun _ => .error ()
      cancelJobResult := fun _ => .error ()
      restartJobResult := fun _ => .error () }

/-- A connection reporting state codes outside both translation
tables, with reasons `['none']`. -/
def connOdd : Conn :=
  { connBase with
      getJobAttributesResult := fun _ => .ok { jobState := 11, jobStateReasons := ["none"] }
      getPrinterAttributesResult := fun _ =>
        { deviceUri := "u"
          printerLocation := "l"
          printerState := 77
          printerStateReasons := ["none"] } }

/-- A `Printer` object whose name is not a queue of `connBase`. -/
def ghostPrinter : PrinterState := Printer.init connBase "ghost"

theorem jobStatusTryBody_cases (state : Nat) (reasons : List String) :
    (∃ v, jobStatusTryBody state reasons = .ok v) ∨
      jobStatusTryBody state reasons = .error .typeError := by
  by_cases hr : reasons = ["none"]
  · exact Or.inl ⟨job_states state, by simp [jobStatusTryBody, hr]⟩
  · cases hjs : job_states state with
    | none => exact Or.inr (by simp [jobStatusTryBody, hr, hjs])
    | some s =>
        exact Or.inl ⟨some (s ++ " - " ++ formatList reasons),
          by simp [jobStatusTryBody, hr, hjs]⟩

theorem printerStatusTryBody_cases (state : Nat) (reasons : List String) :
    (∃ v, printerStatusTryBody state reasons = .ok v) ∨
      printerStatusTryBody state reasons = .error .typeError := by
  by_cases hr : reasons = ["none"]
  · exact Or.inl ⟨printer_states state, by simp [printerStatusTryBody, hr]⟩
  · cases hjs : printer_states state with
    | none => exact Or.inr (by simp [printerStatusTryBody, hr, hjs])
    | some s =>
        exact Or.inl ⟨some (s ++ " - " ++ formatList reasons),
          by simp [printerStatusTryBody, hr, hjs]⟩

theorem jobStatusAfterFetch_eq_tryBody (state : Nat) (reasons : List String) :
    jobStatusAfterFetch state reasons = jobStatusTryBody state reasons := by
  rcases jobStatusTryBody_cases state reasons with ⟨v, hv⟩ | hv <;>
    simp [jobStatusAfterFetch, hv]

theorem printerStatusAfterFetch_eq_tryBody (state : Nat) (reasons : List String) :
    printerStatusAfterFetch state reasons = printerStatusTryBody state reasons := by
  rcases printerStatusTryBody_cases state reasons with ⟨v, hv⟩ | hv <;>
    simp [printerStatusAfterFetch, hv]

theorem jobStatusAfterFetch_known (state : Nat) (s : String) (reasons : List String)
    (h : job_states state = some s) :
    jobStatusAfterFetch state reasons =
      .ok (some (if reasons = ["none"] then s
        else s ++ " - " ++ formatList reasons)) := by
  rw [jobStatusAfterFetch_eq_tryBody]
  by_cases hr : reasons = ["none"] <;> simp [jobStatusTryBody, h, hr]

theorem printerStatusAfterFetch_known (state : Nat) (s : String) (reasons : List String)
    (h : printer_states state = some s) :
    printerStatusAfterFetch state reasons =
      .ok (some (if reasons = ["none"] then s
        else s ++ " - " ++ formatList reasons)) := by
  rw [printerStatusAfterFetch_eq_tryBody]
  by_cases hr : reasons = ["none"] <;> simp [printerStatusTryBody, h, hr]

/-- C1: for every job whose `job-state` attribute is a code in
`{3,...,9}`, `Job.status` yields the corresponding human-readable
string (`Pending`, `Pending-held`, `Processing`, `Processing-stopped`,
`Canceled`, `Aborted`, `Completed`); for every printer in the
connection's printer list whose `printer-state` is in `{3,4,5}`,
`Printer.status` yields the corresponding string (`Idle`, `Processing`,
`Stopped`); in both cases, when the state-reasons list is not exactly
`['none']`, the formatted reasons are appended after `" - "`. -/
theorem status_code_translation :
    (∀ (conn : Conn) (jobId : Int) (attrs : JobAttrs) (code : Nat) (s : String),
        conn.getJobAttributesResult jobId = .ok attrs →
        attrs.jobState = code →
        (code, s) ∈ [(3, "Pending"), (4, "Pending-held"), (5, "Processing"),
          (6, "Processing-stopped"), (7, "Canceled"), (8, "Aborted"),
          (9, "Completed")] →
        Job.status conn jobId =
          .ok (some (if attrs.jobStateReasons = ["none"] then s
            else s ++ " - " ++ formatList attrs.jobStateReasons))) ∧
    (∀ (conn : Conn) (p : PrinterState) (code : Nat) (s : String),
        p._name ∈ conn.printersList →
        (conn.getPrinterAttributesResult p._name).printerState = code →
        (code, s) ∈ [(3, "Idle"), (4, "Processing"), (5, "Stopped")] →
        Printer.status conn p =
          .ok (some
            (if (conn.getPrinterAttributesResult p._name).printerStateReasons
                = ["none"] then s
             else s ++ " - " ++
               formatList
                 (conn.getPrinterAttributesResult p._name).printerStateReasons))) := by
  constructor
  · intro conn jobId attrs code s hok hstate hmem
    have hjs : job_states attrs.jobState = some s := by
      rw [hstate]
      simp only [List.mem_cons, List.not_mem_nil, or_false, Prod.mk.injEq] at hmem
      rcases hmem with ⟨rfl, rfl⟩ | ⟨rfl, rfl⟩ | ⟨rfl, rfl⟩ | ⟨rfl, rfl⟩ |
        ⟨rfl, rfl⟩ | ⟨rfl, rfl⟩ | ⟨rfl, rfl⟩ <;> rfl
    unfold Job.status
    rw [hok]
    exact jobStatusAfterFetch_known _ _ _ hjs
  · intro conn p code s hmem hstate hmemcode
    have hps : printer_states (conn.getPrinterAttributesResult p._name).printerState
        = some s := by
      rw [hstate]
      simp only [List.mem_cons, List.not_mem_nil, or_false, Prod.mk.injEq] at hmemcode
      rcases hmemcode with ⟨rfl, rfl⟩ | ⟨rfl, rfl⟩ | ⟨rfl, rfl⟩ <;> rfl
    have hv : Printer.valid conn p = true := by simp [Printer.valid, hmem]
    unfold Printer.status
    rw [hv]
    simpa using printerStatusAfterFetch_known _ _ _ hps

/-- C1 witness: `connBase` reports job 1 in state 3 with reasons
`['none']` and printer `hp` in state 5 with reasons `['paused']`. -/
theorem status_code_translation_witness :
    Job.status connBase 1 = .ok (some "Pending") ∧
    Printer.status connBase (Printer.init connBase "hp") =
      .ok (some ("Stopped - [" ++ squote ++ "paused" ++ squote ++ "]")) := by
  constructor
  · exact (status_code_translation.1 connBase 1
      { jobState := 3, jobStateReasons := ["none"] } 3 "Pending" rfl rfl
      (by simp)).trans (by decide)
  · exact (status_code_translation.2 connBase (Printer.init connBase "hp") 5
      "Stopped" (by decide) rfl (by simp)).trans (by decide)

theorem mapExcept_ok_forall2 {α β : Type} (f : α → Except PyErr β) :
    ∀ (l : List α) (ys : List β), mapExcept f l = .ok ys →
      List.Forall₂ (fun a b => f a = .ok b) l ys := by
  intro l
  induction l with
  | nil =>
      intro ys h
      simp only [mapExcept, Except.ok.injEq] at h
      subst h
      exact List.Forall₂.nil
  | cons a l ih =>
      intro ys h
      simp only [mapExcept] at h
      cases hfa : f a with
      | error e => rw [hfa] at h; exact absurd h (by simp)
      | ok b =>
          rw [hfa] at h
          cases hml : mapExcept f l with
          | error e => rw [hml] at h; exact absurd h (by simp)
          | ok bs =>
              rw [hml] at h
              obtain rfl : b :: bs = ys := by simpa using h
              exact List.Forall₂.cons hfa (ih bs hml)

/-- C2: `job_number` skips the leading run of `'c'`/`'0'` characters
and applies `int()` to the entire remaining suffix (`c00123` gives
123); a name consisting only of `'c'` and `'0'` characters gives
`None`; `Job.list` builds one `Job` per spool file name matched by
`glob('c*')`, i.e. per name starting with `'c'`, each carrying the
extracted id. -/
theorem job_id_extraction :
    (∀ l : List Char, (∀ c ∈ l, c = 'c' ∨ c = '0') → job_number l = .ok none) ∧
    (∀ (pre : List Char) (c : Char) (rest : List Char),
        (∀ ch ∈ pre, ch = 'c' ∨ ch = '0') → ¬(c = 'c' ∨ c = '0') →
        job_number (pre ++ c :: rest) = (pyInt (c :: rest)).map some) ∧
    job_number ("c00123".toList) = .ok (some 123) ∧
    (∀ (spool : List String) (jobs : List (Option Int)),
        Job.list spool = .ok jobs →
        List.Forall₂ (fun n j => job_number n.toList = .ok j)
          (spool.filter (fun n => globMatchesC n)) jobs) := by
  refine ⟨?_, ?_, by decide, ?_⟩
  · intro l
    induction l with
    | nil => intro; rfl
    | cons c rest ih =>
        intro h
        have hc : c = 'c' ∨ c = '0' := h c (List.mem_cons_self c rest)
        simp only [job_number, if_pos hc]
        exact ih fun ch hch => h ch (List.mem_cons_of_mem c hch)
  · intro pre c rest hpre hc
    induction pre with
    | nil => simp [job_number, hc]
    | cons ch pre' ih =>
        have hch : ch = 'c' ∨ ch = '0' := hpre ch (List.mem_cons_self ch pre')
        simp only [List.cons_append, job_number, if_pos hch]
        exact ih fun x hx => hpre x (List.mem_cons_of_mem ch hx)
  · intro spool jobs h
    exact mapExcept_ok_forall2 _ _ _ h

/-- C2 witness: concrete extractions and a concrete spool listing. -/
theorem job_id_extraction_witness :
    job_number ("c0c0".toList) = .ok none ∧
    job_number (['c', '0'] ++ '1' :: ['2', '3']) = .ok (some 123) ∧
    List.Forall₂ (fun (n : String) j => job_number n.toList = .ok j)
      (["c00123", "d1", "c05"].filter (fun n => globMatchesC n))
      [some 123, some 5] := by
  refine ⟨?_, ?_, ?_⟩
  · exact job_id_extraction.1 ("c0c0".toList) (by decide)
  · exact (job_id_extraction.2.1 ['c', '0'] '1' ['2', '3']
      (by decide) (by decide)).trans (by decide)
  · exact job_id_extraction.2.2.2 ["c00123", "d1", "c05"] [some 123, some 5]
      (by decide)

/-- C3: `Job.status` raises `JobNotFoundError` exactly when the
underlying `getJobAttributes` raises `cups.IPPError`; `Job.cancel`
raises `JobCompletedError` exactly when `cancelJob` raises it;
`Job.restart` raises `JobDocumentNotAvailableError` exactly when
`restartJob` raises it; each re-raised exception carries exactly the
message naming the job id and nothing else. -/
theorem error_relabelling (conn : Conn) (jobId : Int) :
    ((∃ m, Job.status conn jobId = .error (.jobNotFoundError m)) ↔
      conn.getJobAttributesResult jobId = .error ()) ∧
    (conn.getJobAttributesResult jobId = .error () →
      Job.status conn jobId =
        .error (.jobNotFoundError
          ("Job " ++ toString jobId ++ " does not exist."))) ∧
    ((∃ m, Job.cancel conn jobId = .error (.jobCompletedError m)) ↔
      conn.cancelJobResult jobId = .error ()) ∧
    (conn.cancelJobResult jobId = .error () →
      Job.cancel conn jobId =
        .error (.jobCompletedError
          ("Job " ++ toString jobId ++ " has been completed."))) ∧
    ((∃ m, Job.restart conn jobId = .error (.jobDocumentNotAvailableError m)) ↔
      conn.restartJobResult jobId = .error ()) ∧
    (conn.restartJobResult jobId = .error () →
      Job.restart conn jobId =
        .error (.jobDocumentNotAvailableError
          ("Job" ++ squote ++ "s " ++ toString jobId ++
            " document does not exist."))) := by
  have hstat : conn.getJobAttributesResult jobId = .error () →
      Job.status conn jobId =
        .error (.jobNotFoundError
          ("Job " ++ toString jobId ++ " does not exist.")) := by
    intro h; simp [Job.status, h]
  have hcan : conn.cancelJobResult jobId = .error () →
      Job.cancel conn jobId =
        .error (.jobCompletedError
          ("Job " ++ toString jobId ++ " has been completed.")) := by
    intro h; simp [Job.cancel, h]
  have hres : conn.restartJobResult jobId = .error () →
      Job.restart conn jobId =
        .error (.jobDocumentNotAvailableError
          ("Job" ++ squote ++ "s " ++ toString jobId ++
            " document does not exist.")) := by
    intro h; simp [Job.restart, h]
  refine ⟨⟨?_, fun h => ⟨_, hstat h⟩⟩, hstat, ⟨?_, fun h => ⟨_, hcan h⟩⟩,
    hcan, ⟨?_, fun h => ⟨_, hres h⟩⟩, hres⟩
  · rintro ⟨m, hm⟩
    cases hga : conn.getJobAttributesResult jobId with
    | error e => cases e; rfl
    | ok attrs =>
        simp only [Job.status, hga] at hm
        rcases jobStatusTryBody_cases attrs.jobState attrs.jobStateReasons with
          ⟨v, hv⟩ | hv <;>
          rw [jobStatusAfterFetch_eq_tryBody, hv] at hm <;>
          exact absurd hm (by simp)
  · rintro ⟨m, hm⟩
    cases hc : conn.cancelJobResult jobId with
    | error e => cases e; rfl
    | ok u => simp [Job.cancel, hc] at hm
  · rintro ⟨m, hm⟩
    cases hc : conn.restartJobResult jobId with
    | error e => cases e; rfl
    | ok u => simp [Job.restart, hc] at hm

/-- C3 witness: on a connection whose job calls all raise
`cups.IPPError`, the three methods raise the re-labelled exceptions
with the documented messages for job 7. -/
theorem error_relabelling_witness :
    Job.status connIPPFail 7 = .error (.jobNotFoundError "Job 7 does not exist.") ∧
    Job.cancel connIPPFail 7 =
      .error (.jobCompletedError "Job 7 has been completed.") ∧
    Job.restart connIPPFail 7 =
      .error (.jobDocumentNotAvailableError
        ("Job" ++ squote ++ "s 7 document does not exist.")) := by
  have h := error_relabelling connIPPFail 7
  exact ⟨(h.2.1 rfl).trans (by decide), (h.2.2.2.1 rfl).trans (by decide),
    (h.2.2.2.2.2 rfl).trans (by decide)⟩

/-- C4: every printer operation guarded by `Printer.validate` fails on
a printer whose name is not a queue of the connection; but the source
raises `NotImplementedError('Unable to locate the printer.')` there,
never the `PrinterNotFoundError` that `exceptions.py` defines and
`api.py` imports, contradicting the claimed (and clearly intended)
re-labelling. -/
theorem printer_not_found_relabelling_bug :
    Printer.validate connBase ghostPrinter =
      .error (.notImplementedError "Unable to locate the printer.") ∧
    (Printer.delete connBase ghostPrinter).1 =
      .error (.notImplementedError "Unable to locate the printer.") ∧
    (Printer.disable connBase ghostPrinter).1 =
      .error (.notImplementedError "Unable to locate the printer.") ∧
    (Printer.enable connBase ghostPrinter).1 =
      .error (.notImplementedError "Unable to locate the printer.") ∧
    Printer.add connBase ghostPrinter =
      .error (.notImplementedError "Unable to locate the printer.") ∧
    Printer.export_ppd connBase ghostPrinter =
      .error (.notImplementedError "Unable to locate the printer.") ∧
    (Printer.print connBase ghostPrinter "a.pdf" "title" []).1 =
      .error (.notImplementedError "Unable to locate the printer.") ∧
    (∀ m, Printer.validate connBase ghostPrinter ≠
      .error (.printerNotFoundError m)) := by
  refine ⟨by decide, by decide, by decide, by decide, by decide, by decide,
    by decide, ?_⟩
  intro m h
  rw [show Printer.validate connBase ghostPrinter =
    .error (.notImplementedError "Unable to locate the printer.") from by decide] at h
  exact absurd h (by simp)

/-- C5: `CUPS.get_job_attributes` never accepts a job id and never
delegates: the method signature has no `jobid` parameter and the body
reads the local `jobid` before assignment, so every call raises
`UnboundLocalError`, which the `except ValueError` clause does not
catch. -/
theorem get_job_attributes_bug :
    ∀ conn : Conn,
      CUPS.get_job_attributes conn = .error (.unboundLocalError "jobid") ∧
      ∀ attrs : JobAttrs, CUPS.get_job_attributes conn ≠ .ok attrs := by
  intro conn
  exact ⟨rfl, fun attrs h => by simp [CUPS.get_job_attributes] at h⟩

theorem setName_name (conn : Conn) (p : PrinterState) (n : String) :
    (Printer.setName conn p n)._name = n := by
  unfold Printer.setName
  by_cases h : Printer.valid conn { p with _name := n } <;> simp [h]

theorem init_name (conn : Conn) (n : String) : (Printer.init conn n)._name = n :=
  setName_name conn _ n

/-- C6: `CUPS.get_default` wraps the reported default printer name in a
`Printer` whenever that name is truthy and returns `None` otherwise;
`CUPS.get_printers` returns exactly one `Printer` per queue name
reported by `getPrinters`. -/
theorem default_and_listing_wrappers (conn : Conn) :
    (∀ n : String, conn.getDefaultResult = some n → n ≠ "" →
      CUPS.get_default conn = some (Printer.init conn n) ∧
        ∀ p : PrinterState, CUPS.get_default conn = some p → p._name = n) ∧
    (conn.getDefaultResult = none → CUPS.get_default conn = none) ∧
    (conn.getDefaultResult = some "" → CUPS.get_default conn = none) ∧
    (CUPS.get_printers conn).map (fun p => p._name) = conn.printersList := by
  refine ⟨?_, ?_, ?_, ?_⟩
  · intro n hsome hne
    have hval : CUPS.get_default conn = some (Printer.init conn n) := by
      simp [CUPS.get_default, hsome, hne]
    refine ⟨hval, ?_⟩
    intro p hp
    rw [hval] at hp
    obtain rfl : Printer.init conn n = p := by simpa using hp
    exact init_name conn n
  · intro h; simp [CUPS.get_default, h]
  · intro h; simp [CUPS.get_default, h]
  · simp only [CUPS.get_printers, List.map_map]
    have : ((fun p : PrinterState => p._name) ∘ Printer.init conn) =
        fun n => (Printer.init conn n)._name := rfl
    rw [this]
    calc conn.printersList.map (fun n => (Printer.init conn n)._name)
        = conn.printersList.map id := by
          apply List.map_congr_left
          intro x hx
          exact init_name conn x
      _ = conn.printersList := List.map_id conn.printersList

/-- C6 witness: on `connBase` the default printer is `hp` and the
single listed queue is wrapped with its name intact; a connection
reporting no default yields `None`. -/
theorem default_and_listing_wrappers_witness :
    CUPS.get_default connBase = some (Printer.init connBase "hp") ∧
    (CUPS.get_printers connBase).map (fun p => p._name) = ["hp"] ∧
    CUPS.get_default { connBase with getDefaultResult := none } = none := by
  refine ⟨((default_and_listing_wrappers connBase).1 "hp" rfl (by decide)).1,
    ((default_and_listing_wrappers connBase).2.2.2).trans rfl,
    (default_and_listing_wrappers
      { connBase with getDefaultResult := none }).2.1 rfl⟩

/-- C7 counterexample to the claim as stated: assigning `Printer.name`
to a name absent from the printer list does not leave the cached fields
at `None` when a previous valid name had filled them; `device_uri`
keeps its old cached value. -/
theorem attribute_caching_counterexample :
    ("ghost" ∈ connBase.printersList → False) ∧
    (Printer.setName connBase (Printer.init connBase "hp") "ghost").device_uri ≠
      none := by
  decide

/-- C7 amended: immediately after constructing `Printer(name)`, a name
in the printer list fills `attributes`, `device_uri` and `location`
from `getPrinterAttributes` with `job_id` still `None`, and a name not
in the list leaves all four at `None`; the `name` setter itself leaves
every field other than `_name` unchanged when the new name is not in
the list (rather than resetting them to `None`). -/
theorem attribute_caching_amended (conn : Conn) (name : String) :
    (name ∈ conn.printersList →
      (Printer.init conn name).attributes =
          some (conn.getPrinterAttributesResult name) ∧
        (Printer.init conn name).device_uri =
          some (conn.getPrinterAttributesResult name).deviceUri ∧
        (Printer.init conn name).location =
          some (conn.getPrinterAttributesResult name).printerLocation ∧
        (Printer.init conn name).job_id = none) ∧
    (name ∉ conn.printersList →
      (Printer.init conn name).attributes = none ∧
        (Printer.init conn name).device_uri = none ∧
        (Printer.init conn name).location = none ∧
        (Printer.init conn name).job_id = none) ∧
    (∀ p : PrinterState,
      (name ∈ conn.printersList →
        Printer.setName conn p name =
          { p with
              _name := name
              attributes := some (conn.getPrinterAttributesResult name)
              device_uri := some (conn.getPrinterAttributesResult name).deviceUri
              location :=
                some (conn.getPrinterAttributesResult name).printerLocation }) ∧
      (name ∉ conn.printersList →
        Printer.setName conn p name = { p with _name := name })) := by
  have hset : ∀ p : PrinterState,
      (name ∈ conn.printersList →
        Printer.setName conn p name =
          { p with
              _name := name
              attributes := some (conn.getPrinterAttributesResult name)
              device_uri := some (conn.getPrinterAttributesResult name).deviceUri
              location :=
                some (conn.getPrinterAttributesResult name).printerLocation }) ∧
      (name ∉ conn.printersList →
        Printer.setName conn p name = { p with _name := name }) := by
    intro p
    constructor
    · intro h
      simp [Printer.setName, Printer.valid, h]
    · intro h
      simp [Printer.setName, Printer.valid, h]
  refine ⟨?_, ?_, hset⟩
  · intro h
    rw [Printer.init, (hset _).1 h]
    exact ⟨rfl, rfl, rfl, rfl⟩
  · intro h
    rw [Printer.init, (hset _).2 h]
    exact ⟨rfl, rfl, rfl, rfl⟩

/-- C7 witness: on `connBase`, constructing with the valid name `hp`
caches `device-uri`, while constructing with `ghost` leaves the caches
at `None`. -/
theorem attribute_caching_witness :
    (Printer.init connBase "hp").device_uri = some "usb://hp/LaserJet" ∧
    (Printer.init connBase "ghost").device_uri = none := by
  refine ⟨?_, ((attribute_caching_amended connBase "ghost").2.1 (by decide)).2.1⟩
  exact ((attribute_caching_amended connBase "hp").1 (by decide)).2.1.trans
    (by decide)

/-- C8: `Printer.valid` is `True` exactly when the printer name is a
key of `getPrinters()`, and any assignment to `valid` raises
`AttributeError('Valid is not a writable attribute.')`, producing no
updated object state. -/
theorem valid_readonly (conn : Conn) (p : PrinterState) :
    (Printer.valid conn p = true ↔ p._name ∈ conn.printersList) ∧
    ∀ v : Bool, Printer.setValid p v =
      .error (.attributeError "Valid is not a writable attribute.") := by
  constructor
  · unfold Printer.valid
    by_cases h : p._name ∈ conn.printersList <;> simp [h]
  · intro v; rfl

/-- C9: the `except KeyError` fallback of both status properties is
dead code — the defaulting-`get` try bodies never raise `KeyError`, so
wrapping them in the handler changes nothing — and for a state code
outside the translation table with reasons exactly `['none']` both
status properties return `None` instead of any human-readable
string. -/
theorem dead_fallback_branch :
    (∀ (state : Nat) (reasons : List String),
      jobStatusAfterFetch state reasons = jobStatusTryBody state reasons ∧
        jobStatusTryBody state reasons ≠ .error .keyError ∧
        printerStatusAfterFetch state reasons = printerStatusTryBody state reasons ∧
        printerStatusTryBody state reasons ≠ .error .keyError) ∧
    (∀ (conn : Conn) (jobId : Int) (attrs : JobAttrs),
      conn.getJobAttributesResult jobId = .ok attrs →
      job_states attrs.jobState = none →
      attrs.jobStateReasons = ["none"] →
      Job.status conn jobId = .ok none) ∧
    (∀ (conn : Conn) (p : PrinterState),
      p._name ∈ conn.printersList →
      printer_states (conn.getPrinterAttributesResult p._name).printerState = none →
      (conn.getPrinterAttributesResult p._name).printerStateReasons = ["none"] →
      Printer.status conn p = .ok none) := by
  refine ⟨?_, ?_, ?_⟩
  · intro state reasons
    refine ⟨jobStatusAfterFetch_eq_tryBody state reasons, ?_,
      printerStatusAfterFetch_eq_tryBody state reasons, ?_⟩
    · rcases jobStatusTryBody_cases state reasons with ⟨v, hv⟩ | hv <;>
        rw [hv] <;> simp
    · rcases printerStatusTryBody_cases state reasons with ⟨v, hv⟩ | hv <;>
        rw [hv] <;> simp
  · intro conn jobId attrs hok hnone hreasons
    simp only [Job.status, hok, jobStatusAfterFetch_eq_tryBody]
    simp [jobStatusTryBody, hreasons, hnone]
  · intro conn p hmem hnone hreasons
    have hv : Printer.valid conn p = true := by simp [Printer.valid, hmem]
    simp only [Printer.status, hv, if_true, printerStatusAfterFetch_eq_tryBody]
    simp [printerStatusTryBody, hreasons, hnone]

/-- C9 witness: job state 11 and printer state 77 with reasons
`['none']` both give `None`. -/
theorem dead_fallback_branch_witness :
    Job.status connOdd 1 = .ok none ∧
    Printer.status connOdd (Printer.init connOdd "hp") = .ok none := by
  refine ⟨dead_fallback_branch.2.1 connOdd 1
      { jobState := 11, jobStateReasons := ["none"] } rfl rfl rfl,
    dead_fallback_branch.2.2 connOdd (Printer.init connOdd "hp")
      (by decide) rfl rfl⟩

/-- C10: `Printer.print` on a name not in the printer list raises
before `printFile` is ever invoked and leaves every field of the object
unchanged; on a listed name it stores the job id returned by
`printFile` in `job_id` and returns that same id. -/
theorem print_atomicity (conn : Conn) (p : PrinterState)
    (filename title : String) (options : List (String × String)) :
    (p._name ∉ conn.printersList →
      Printer.print conn p filename title options =
        (.error (.notImplementedError p.default_message), p, false)) ∧
    (p._name ∈ conn.printersList →
      Printer.print conn p filename title options =
        (.ok (conn.printFileResult p._name filename title options),
          { p with job_id := some (conn.printFileResult p._name filename title options) },
          true)) := by
  constructor
  · intro h
    simp [Printer.print, Printer.validate, Printer.valid, h]
  · intro h
    simp [Printer.print, Printer.validate, Printer.valid, h]

/-- C10 witness: printing on the invalid `ghost` printer raises with
the state intact and `printFile` not reached; printing on `hp` stores
and returns job id 42. -/
theorem print_atomicity_witness :
    Printer.print connBase ghostPrinter "a.pdf" "title" [] =
      (.error (.notImplementedError "Unable to locate the printer."),
        ghostPrinter, false) ∧
    Printer.print connBase (Printer.init connBase "hp") "a.pdf" "title" [] =
      (.ok 42, { Printer.init connBase "hp" with job_id := some 42 }, true) := by
  refine ⟨((print_atomicity connBase ghostPrinter "a.pdf" "title" []).1
      (by decide)).trans (by decide),
    ((print_atomicity connBase (Printer.init connBase "hp") "a.pdf" "title" []).2
      (by decide)).trans (by decide)⟩
